import Mathlib

/-!
Verification of the WACC calculator web application (`app.py`).

The numeric domain of the program is embedded by the exact rationals `ℚ`.
Balance-sheet labels are embedded as lists of characters; a cell of the
balance sheet's most recent reporting column is an `Option ℚ`, where `none`
stands for a not-a-number (NaN) value. A balance sheet is embedded as the
list of its rows, each row carrying its raw label and its value in the most
recent reporting column (`balance_sheet.columns[0]` in the source).
-/

namespace DCF

/-- A raw balance-sheet row label, as a list of characters. -/
abbrev Label := List Char

/-- Embeds `_normalize_label` from `app.py`:
`label.strip().lower().replace(" ", "").replace("_", "")`.
`strip` drops leading and trailing whitespace, `lower` maps every character
to lower case, and the two `replace` calls delete all spaces and
underscores. -/
def _normalize_label (label : Label) : Label :=
  let stripped := ((label.dropWhile Char.isWhitespace).reverse.dropWhile Char.isWhitespace).reverse
  let lowered := stripped.map Char.toLower
  (lowered.filter (fun c => c ≠ ' ')).filter (fun c => c ≠ '_')

/-- The set `debt_labels` of `_extract_total_debt` in `app.py`, listed in
the order the spec gives them. -/
def debt_labels : List Label :=
  [ "totaldebt".data
  , "longtermdebt".data
  , "shortlongtermdebttotal".data
  , "longtermdebttotal".data
  , "shorttermdebttotal".data ]

/-- The row-matching test of the loop in `_extract_total_debt`:
`_normalize_label(str(raw_label)) in debt_labels`. -/
def labelMatches (label : Label) : Prop :=
  _normalize_label label ∈ debt_labels

instance (label : Label) : Decidable (labelMatches label) := by
  unfold labelMatches; infer_instance

/-- A balance-sheet row: raw label and the value in the most recent
reporting column; `none` stands for NaN. -/
abbrev Row := Label × Option ℚ

/-- The loop of `_extract_total_debt`: scan rows in sheet order; at the
first row whose normalized label is in `debt_labels`, return the value of
the most recent column (`float(value)` when not NaN, else `None`). -/
def extractRows : List Row → Option ℚ
  | [] => none
  | (label, value) :: rest =>
      if labelMatches label then value else extractRows rest

/-- Embeds `_extract_total_debt` from `app.py`. A `None` or empty balance
sheet yields `None`; otherwise the rows are scanned by `extractRows`. -/
def _extract_total_debt : Option (List Row) → Option ℚ
  | none => none
  | some rows => extractRows rows

/-- Modelled from the spec's words, for comparison with
`_extract_total_debt`: try the five debt synonyms in the fixed priority
order of `debt_labels` (total debt, long-term debt, short/long-term debt
total, long-term debt total, short-term debt total), and return the value
of the first row matching the highest-priority synonym present in the
sheet, regardless of row order. The source instead scans rows in sheet
order against an unordered set. -/
def extractTotalDebtPriority (rows : List Row) : Option ℚ :=
  match debt_labels.findSome?
      (fun syn => rows.find? (fun r => _normalize_label r.1 == syn)) with
  | some r => r.2
  | none => none

/-- The record returned by `calculate_wacc`. -/
structure WaccResult where
  equity_weight : ℚ
  debt_weight : ℚ
  cost_of_equity : ℚ
  after_tax_cost_of_debt : ℚ
  wacc : ℚ
  deriving DecidableEq, Repr

/-- Embeds `calculate_wacc` from `app.py`. Python's
`x / total_capital if total_capital else 0` is the zero test on
`total_capital` (float truthiness). -/
def calculate_wacc (market_cap total_debt risk_free_rate market_risk_premium
    cost_of_debt tax_rate beta : ℚ) : WaccResult :=
  let equity_value := market_cap
  let debt_value := max total_debt 0
  let total_capital := equity_value + debt_value
  let equity_weight := if total_capital ≠ 0 then equity_value / total_capital else 0
  let debt_weight := if total_capital ≠ 0 then debt_value / total_capital else 0
  let cost_of_equity := risk_free_rate + beta * market_risk_premium
  let after_tax_cost_of_debt := cost_of_debt * (1 - tax_rate)
  { equity_weight := equity_weight
  , debt_weight := debt_weight
  , cost_of_equity := cost_of_equity
  , after_tax_cost_of_debt := after_tax_cost_of_debt
  , wacc := equity_weight * cost_of_equity + debt_weight * after_tax_cost_of_debt }

/-- Embeds lines 53–56 of `fetch_ticker_metrics`: when `market_cap` is
`None`, `price` is not `None`, and `shares_outstanding` is truthy (present
and nonzero), derive the market cap as `price * shares_outstanding`;
otherwise keep the fetched `market_cap`. -/
def derive_market_cap (price shares_outstanding market_cap : Option ℚ) : Option ℚ :=
  match market_cap, price, shares_outstanding with
  | none, some p, some s => if s ≠ 0 then some (p * s) else none
  | mc, _, _ => mc

/-- Python's `x or default` on an optional float: `None` and `0.0` are
falsy and give the default; any other value passes through. Embeds the
defaulting in lines 158–159 of the submit handler
(`metrics.get("beta") or 1.0`, `metrics.get("total_debt") or 0.0`). -/
def py_or (fetched : Option ℚ) (default : ℚ) : ℚ :=
  match fetched with
  | none => default
  | some x => if x = 0 then default else x

/-- Rows matching no debt label are skipped by the extraction loop. -/
lemma extractRows_append_of_no_match (pre rows : List Row)
    (h : ∀ r ∈ pre, ¬ labelMatches r.1) :
    extractRows (pre ++ rows) = extractRows rows := by
  induction pre with
  | nil => rfl
  | cons r pre ih =>
      have hr : ¬ labelMatches r.1 := h r (List.mem_cons_self r pre)
      cases r with
      | mk label v =>
          simp only [List.cons_append, extractRows, if_neg hr]
          exact ih (fun s hs => h s (List.mem_cons_of_mem _ hs))

/-- A leading matching row decides the extraction result. -/
lemma extractRows_cons_match (label : Label) (v : Option ℚ) (rest : List Row)
    (h : labelMatches label) :
    extractRows ((label, v) :: rest) = v := by
  simp [extractRows, h]

/-- C1: with `debtValue = max(totalDebt, 0)`, whenever
`equityValue + debtValue > 0` the returned `equity_weight` and
`debt_weight` sum to `1`, and whenever `equityValue + debtValue = 0` both
returned weights are `0` (the guarded branch performs no division). -/
theorem C1_weights (mc td rf mrp cod tax beta : ℚ) :
    (mc + max td 0 > 0 →
      (calculate_wacc mc td rf mrp cod tax beta).equity_weight
        + (calculate_wacc mc td rf mrp cod tax beta).debt_weight = 1) ∧
    (mc + max td 0 = 0 →
      (calculate_wacc mc td rf mrp cod tax beta).equity_weight = 0 ∧
      (calculate_wacc mc td rf mrp cod tax beta).debt_weight = 0) := by
  constructor
  · intro h
    have hne : mc + max td 0 ≠ 0 := ne_of_gt h
    simp only [calculate_wacc, if_pos hne]
    rw [div_add_div_same, div_self hne]
  · intro h
    simp [calculate_wacc, h]

/-- C1 witness: the weight invariant at equity 800000 / debt 200000, and
both weights zero at zero total capital. -/
theorem C1_weights_witness :
    ((calculate_wacc 800000 200000 0.03 0.06 0.05 0.21 1.2).equity_weight
      + (calculate_wacc 800000 200000 0.03 0.06 0.05 0.21 1.2).debt_weight = 1) ∧
    ((calculate_wacc 0 0 0.03 0.06 0.05 0.21 1.2).equity_weight = 0 ∧
     (calculate_wacc 0 0 0.03 0.06 0.05 0.21 1.2).debt_weight = 0) :=
  ⟨(C1_weights 800000 200000 0.03 0.06 0.05 0.21 1.2).1 (by norm_num),
   (C1_weights 0 0 0.03 0.06 0.05 0.21 1.2).2 (by norm_num)⟩

/-- C2: the end-to-end scenario equity 800000, debt 200000, risk-free rate
0.03, market risk premium 0.06, beta 1.2, cost of debt 0.05, tax rate 0.21
yields exactly weights 0.8 and 0.2, cost of equity 0.102, after-tax cost
of debt 0.0395, and WACC 0.0895. -/
theorem C2_scenario :
    calculate_wacc 800000 200000 0.03 0.06 0.05 0.21 1.2 =
      { equity_weight := 0.8, debt_weight := 0.2, cost_of_equity := 0.102,
        after_tax_cost_of_debt := 0.0395, wacc := 0.0895 } := by
  norm_num [calculate_wacc]

/-- C3 counterexample: on a sheet whose rows are "Long Term Debt" (value 5)
then "Total Debt" (value 7), the source extraction returns 5, while the
spec's priority order would select the "Total Debt" row and return 7: the
selection depends on row order, refuting the claim. -/
theorem C3_counterexample :
    _extract_total_debt
        (some [("Long Term Debt".data, some 5), ("Total Debt".data, some 7)]) = some 5 ∧
    extractTotalDebtPriority
        [("Long Term Debt".data, some 5), ("Total Debt".data, some 7)] = some 7 ∧
    (some (5 : ℚ)) ≠ some 7 :=
  ⟨by decide, by decide, by decide⟩

/-- C3 amended: the extraction selects the first row in SHEET order whose
normalized label matches any of the five debt synonyms, and returns that
row's most-recent-column value. -/
theorem C3_amended (pre rest : List Row) (label : Label) (v : Option ℚ)
    (hpre : ∀ r ∈ pre, ¬ labelMatches r.1) (hl : labelMatches label) :
    _extract_total_debt (some (pre ++ (label, v) :: rest)) = v := by
  show extractRows (pre ++ (label, v) :: rest) = v
  rw [extractRows_append_of_no_match pre _ hpre, extractRows_cons_match _ _ _ hl]

/-- C3 amended witness: a non-matching "Cash" row is skipped and the first
matching row "Total Debt" is selected ahead of a later matching row. -/
theorem C3_amended_witness :
    _extract_total_debt
      (some ([("Cash".data, some 1)]
        ++ ("Total Debt".data, some 7) :: [("Long Term Debt".data, some 9)])) = some 7 :=
  C3_amended [("Cash".data, some 1)] [("Long Term Debt".data, some 9)]
    "Total Debt".data (some 7) (by decide) (by decide)

/-- C4 counterexample: with price 150 present, sharesOutstanding 0 present
and marketCap absent, the fetcher leaves marketCap absent (Python truthiness
of `shares_outstanding` fails at 0), not 150 * 0, refuting the claim's
"including sharesOutstanding equal to 0". -/
theorem C4_counterexample :
    derive_market_cap (some 150) (some 0) none = none ∧
    (none : Option ℚ) ≠ some (150 * 0) :=
  ⟨by norm_num [derive_market_cap], by simp⟩

/-- C4 amended: when the quote snapshot's marketCap is absent and both
price and a NONZERO sharesOutstanding are present, the fetcher derives
marketCap as their product; sharesOutstanding 0 leaves marketCap absent. -/
theorem C4_amended (p s : ℚ) (hs : s ≠ 0) :
    derive_market_cap (some p) (some s) none = some (p * s) := by
  simp [derive_market_cap, hs]

/-- C4 amended witness: price 150 and 1000000 shares derive a market cap
of 150000000. -/
theorem C4_amended_witness :
    derive_market_cap (some 150) (some 1000000) none = some 150000000 := by
  rw [C4_amended 150 1000000 (by norm_num)]
  norm_num

/-- C5 counterexample: a fetched beta of 0.0 is falsy under Python's `or`,
so the submit handler passes beta 1, not the fetched 0, refuting the
claim's "including a fetched value of 0.0". -/
theorem C5_counterexample : py_or (some 0) 1 = 1 ∧ (1 : ℚ) ≠ 0 := by
  norm_num [py_or]

/-- C5 amended: the beta passed to the calculator equals the fetched beta
whenever it is present and NONZERO, and equals 1.0 when the fetched beta
is absent or 0.0; totalDebt equals the fetched value when present, else
0.0 (a fetched 0.0 coincides with the default). -/
theorem C5_amended :
    (∀ b : ℚ, b ≠ 0 → py_or (some b) 1 = b) ∧
    py_or none 1 = 1 ∧ py_or (some 0) 1 = 1 ∧
    (∀ d : Option ℚ, py_or d 0 = d.getD 0) := by
  refine ⟨fun b hb => by simp [py_or, hb], by simp [py_or], by simp [py_or], fun d => ?_⟩
  cases d with
  | none => simp [py_or]
  | some x =>
      by_cases hx : x = 0
      · simp [py_or, hx]
      · simp [py_or, hx]

/-- C5 amended witness: a nonzero fetched beta 2 passes through. -/
theorem C5_amended_witness : py_or (some 2) 1 = 2 :=
  C5_amended.1 2 (by norm_num)

/-- C6: when the first matching debt row holds NaN in the most recent
column, the extraction returns no value (`none`), never zero. -/
theorem C6_nan_is_absent (pre rest : List Row) (label : Label)
    (hpre : ∀ r ∈ pre, ¬ labelMatches r.1) (hl : labelMatches label) :
    _extract_total_debt (some (pre ++ (label, none) :: rest)) = none := by
  show extractRows (pre ++ (label, none) :: rest) = none
  rw [extractRows_append_of_no_match pre _ hpre, extractRows_cons_match _ _ _ hl]

/-- C6 witness: a sheet whose only row "Long Term Debt" holds NaN in the
most recent column yields no value. -/
theorem C6_nan_is_absent_witness :
    _extract_total_debt (some ([] ++ ("Long Term Debt".data, none) :: [])) = none :=
  C6_nan_is_absent [] [] "Long Term Debt".data (by decide) (by decide)

/-- C7: the calculator clamps `total_debt` to `max(total_debt, 0)` before
weighting, so every totalDebt input is equivalent to its clamped value and
every negative totalDebt contributes exactly as zero debt. -/
theorem C7_clamp (mc td rf mrp cod tax beta : ℚ) :
    calculate_wacc mc td rf mrp cod tax beta
        = calculate_wacc mc (max td 0) rf mrp cod tax beta ∧
    (td < 0 →
      calculate_wacc mc td rf mrp cod tax beta
        = calculate_wacc mc 0 rf mrp cod tax beta) := by
  constructor
  · have h : max (max td 0) 0 = max td 0 := by
      rw [max_assoc, max_self]
    simp [calculate_wacc, h]
  · intro hneg
    have h : max td 0 = 0 := max_eq_right hneg.le
    simp [calculate_wacc, h]

/-- C7 witness: totalDebt -5 gives the same result as totalDebt 0. -/
theorem C7_clamp_witness :
    calculate_wacc 100 (-5) 0.03 0.06 0.05 0.21 1.2
      = calculate_wacc 100 0 0.03 0.06 0.05 0.21 1.2 :=
  (C7_clamp 100 (-5) 0.03 0.06 0.05 0.21 1.2).2 (by norm_num)

/-- C8: label matching is determined by normalization alone — labels with
equal normalizations match alike, any label normalizing like a debt synonym
matches, and "Total Debt", "total_debt" and "TOTALDEBT" all match. -/
theorem C8_matching_normalization_invariant :
    (∀ l1 l2 : Label, _normalize_label l1 = _normalize_label l2 →
      (labelMatches l1 ↔ labelMatches l2)) ∧
    (∀ l : Label, ∀ d ∈ debt_labels,
      _normalize_label l = _normalize_label d → labelMatches l) ∧
    labelMatches "Total Debt".data ∧
    labelMatches "total_debt".data ∧
    labelMatches "TOTALDEBT".data := by
  have hidem : ∀ d ∈ debt_labels, _normalize_label d = d := by decide
  refine ⟨fun l1 l2 h => ?_, fun l d hd h => ?_, by decide, by decide, by decide⟩
  · unfold labelMatches
    rw [h]
  · unfold labelMatches
    rw [h, hidem d hd]
    exact hd

/-- C8 witness: the mixed-case, underscore- and space-bearing label
"ToTaL_DeBt " matches via its normalization. -/
theorem C8_matching_witness : labelMatches "ToTaL_DeBt ".data :=
  C8_matching_normalization_invariant.2.1 "ToTaL_DeBt ".data "totaldebt".data
    (by decide) (by decide)

/-- C9: the calculator's cost of equity is linear in beta — for fixed
rates, the difference in cost of equity between two betas is exactly
`market_risk_premium * Δbeta`. -/
theorem C9_capm_linear_in_beta (mc td rf mrp cod tax b1 b2 : ℚ) :
    (calculate_wacc mc td rf mrp cod tax b1).cost_of_equity
      - (calculate_wacc mc td rf mrp cod tax b2).cost_of_equity
      = mrp * (b1 - b2) := by
  simp only [calculate_wacc]
  ring

/-- C10: the extraction stops at the first matching row in sheet order —
when that row holds NaN, the result is no value even though a later row
with a matching debt label holds a finite value. -/
theorem C10_first_match_stops (pre rest : List Row) (label label2 : Label) (v : ℚ)
    (hpre : ∀ r ∈ pre, ¬ labelMatches r.1) (hl : labelMatches label)
    (hl2 : labelMatches label2) :
    _extract_total_debt
      (some (pre ++ (label, none) :: (label2, some v) :: rest)) = none := by
  have hskip := hl2
  show extractRows (pre ++ (label, none) :: (label2, some v) :: rest) = none
  rw [extractRows_append_of_no_match pre _ hpre, extractRows_cons_match _ _ _ hl]

/-- C10 witness: "Total Debt" with NaN followed by "Long Term Debt" with a
finite value 100 yields no value. -/
theorem C10_first_match_stops_witness :
    _extract_total_debt
      (some ([] ++ ("Total Debt".data, none) :: ("Long Term Debt".data, some 100) :: []))
      = none :=
  C10_first_match_stops [] [] "Total Debt".data "Long Term Debt".data 100
    (by decide) (by decide) (by decide)

end DCF
